import Mathlib

/-!
Verification of the Stories App core: the transcription retry engine
(src/backend/retry_logic.py) and the dual-window recording session
coordinator (src/backend/window_manager.py), shallowly embedded in Lean.

Python floats are modelled as rationals (all constants involved are
exactly representable), machine time as a natural-number clock passed in
explicitly, exceptions as Except values, and the on-disk JSON files as
optional fields of the state. The coordinator methods are modelled with
an explicit lock discipline: every method body receives the boolean
flag saying whether the single non-reentrant mutex is already held, and
an attempt to acquire the mutex while it is held is modelled as the
operation getting stuck (returning no result), exactly as a second
acquire of a non-reentrant threading.Lock blocks the calling thread
forever.
-/

/-! ## Error classification (retry_logic.py, TranscriptionRetryHandler.should_retry) -/

/-- Retry reasons, from the RetryReason enum of retry_logic.py. -/
inductive RetryReason where
  | NETWORK_ERROR
  | API_TIMEOUT
  | RATE_LIMIT
  | SERVER_ERROR
  | AUTHENTICATION_ERROR
  | UNKNOWN_ERROR
  deriving DecidableEq

/-- Boolean test that the first character list is a prefix of the second. -/
def charsPref : List Char → List Char → Bool
  | [], _ => true
  | _ :: _, [] => false
  | a :: as, b :: bs => a == b && charsPref as bs

/-- Boolean substring test on character lists, mirroring the Python
membership test for strings. -/
def charsSub (needle : List Char) : List Char → Bool
  | [] => charsPref needle []
  | b :: bs => charsPref needle (b :: bs) || charsSub needle bs

/-- Does the (already lower-cased) character list contain any of the
given keywords, as in the Python any-generator over the keyword list. -/
def containsAny (hay : List Char) (kws : List String) : Bool :=
  kws.any fun kw => charsSub kw.data hay

/-- Keyword table of step 1 of should_retry (network-related errors). -/
def networkKws : List String :=
  ["connection", "network", "timeout", "unreachable",
   "connection reset", "connection refused"]

/-- Keyword table of step 2 of should_retry (rate limiting). -/
def rateKws : List String :=
  ["rate limit", "too many requests", "429"]

/-- Keyword table of step 3 of should_retry (server errors). -/
def serverKws : List String :=
  ["internal server error", "500", "502", "503", "504",
   "server error", "service unavailable"]

/-- Keyword table of step 4 of should_retry (timeout errors). -/
def timeoutKws : List String :=
  ["timeout", "timed out", "read timeout"]

/-- Keyword table of step 5 of should_retry (authentication errors). -/
def authKws : List String :=
  ["unauthorized", "401", "invalid api key", "authentication"]

/-- Keyword table of step 6 of should_retry (client errors). -/
def clientKws : List String :=
  ["400", "403", "404", "bad request", "forbidden", "not found"]

/-- The characters of a string, lower-cased as by the Python lower()
method (the relevant keywords and error descriptions are ASCII). -/
def lowerData (s : String) : List Char :=
  s.data.map Char.toLower

/-- TranscriptionRetryHandler.should_retry of retry_logic.py: determine
from the error description whether to retry, and the retry reason.
First matching keyword table wins; the description is lower-cased first. -/
def should_retry (error : String) : Bool × RetryReason :=
  let es := lowerData error
  if containsAny es networkKws then (true, RetryReason.NETWORK_ERROR)
  else if containsAny es rateKws then (true, RetryReason.RATE_LIMIT)
  else if containsAny es serverKws then (true, RetryReason.SERVER_ERROR)
  else if containsAny es timeoutKws then (true, RetryReason.API_TIMEOUT)
  else if containsAny es authKws then (false, RetryReason.AUTHENTICATION_ERROR)
  else if containsAny es clientKws then (false, RetryReason.UNKNOWN_ERROR)
  else (true, RetryReason.UNKNOWN_ERROR)

/-! ## Backoff delays (TranscriptionRetryHandler.calculate_delay) -/

/-- The handler configuration of TranscriptionRetryHandler.__init__. -/
structure TranscriptionRetryHandler where
  max_attempts : Nat
  base_delay : ℚ
  timeout : ℤ

/-- TranscriptionRetryHandler.calculate_delay: exponential backoff
base_delay * 2 ^ (attempt - 1), scaled by 3 for rate limiting and by
0.5 for network errors, capped at 30 seconds. -/
def calculate_delay (h : TranscriptionRetryHandler) (attempt : Nat)
    (retry_reason : RetryReason) : ℚ :=
  let base := h.base_delay * (2 : ℚ) ^ ((attempt : ℤ) - 1)
  let scaled :=
    match retry_reason with
    | RetryReason.RATE_LIMIT => base * 3
    | RetryReason.NETWORK_ERROR => base * (1 / 2)
    | _ => base
  min scaled 30

/-! ## Dynamic timeout (calculate_dynamic_timeout) -/

/-- Python int() conversion on a rational: truncation toward zero. -/
def pyInt (q : ℚ) : ℤ :=
  if 0 ≤ q then ⌊q⌋ else ⌈q⌉

/-- calculate_dynamic_timeout of retry_logic.py: duration * 2 + 30,
truncated to an integer, clamped to [60, 1800]; 60 for nonpositive input. -/
def calculate_dynamic_timeout (audio_duration_seconds : ℚ) : ℤ :=
  if audio_duration_seconds ≤ 0 then 60
  else
    let calculated_timeout := pyInt (audio_duration_seconds * 2 + 30)
    max 60 (min calculated_timeout 1800)

/-- The timeout selection of create_openai_transcription: the Python
truthiness test (audio_duration and audio_duration > 0) reduces to
checking that the duration is present and positive; otherwise the
default of 60 is used. -/
def dynamic_timeout_for (audio_duration : Option ℚ) : ℤ :=
  match audio_duration with
  | none => 60
  | some q => if 0 < q then calculate_dynamic_timeout q else 60

/-! ## The retry loop (TranscriptionRetryHandler.retry_transcription) -/

/-- RetryResult of retry_logic.py. -/
structure RetryResult (α : Type) where
  success : Bool
  data : Option α
  error : Option String
  attempts : Nat
  retry_reason : Option RetryReason
  deriving DecidableEq

/-- The body of the for-loop of retry_transcription. The operation is
indexed by the attempt number (the Python callable may be stateful
across attempts); rem counts the loop iterations still allowed,
attempt is the 1-based attempt counter, and the last two arguments are
the last_error and retry_reason locals. When the iterations run out,
the all-attempts-failed result is built exactly as in the source
(attempts = max_attempts, error = str(last_error)). -/
def retryLoopGo {α : Type} (op : Nat → Except String α) (maxA : Nat) :
    Nat → Nat → Option String → Option RetryReason → RetryResult α
  | 0, _, last_error, last_reason =>
    { success := false, data := none,
      error := some (last_error.getD "None"),
      attempts := maxA, retry_reason := last_reason }
  | rem + 1, attempt, _, _ =>
    match op attempt with
    | Except.ok r =>
      { success := true, data := some r, error := none,
        attempts := attempt, retry_reason := none }
    | Except.error e =>
      let c := should_retry e
      if c.1 = false then
        { success := false, data := none, error := some e,
          attempts := attempt, retry_reason := some c.2 }
      else
        retryLoopGo op maxA rem (attempt + 1) (some e) (some c.2)

/-- TranscriptionRetryHandler.retry_transcription: run the retry loop
for attempts 1 .. max_attempts. -/
def retry_transcription {α : Type} (h : TranscriptionRetryHandler)
    (op : Nat → Except String α) : RetryResult α :=
  retryLoopGo op h.max_attempts h.max_attempts 1 none none

example : should_retry "timeout" = (true, RetryReason.NETWORK_ERROR) := by decide

example : should_retry "timed out" = (true, RetryReason.API_TIMEOUT) := by decide

example : should_retry "Unauthorized access" = (false, RetryReason.AUTHENTICATION_ERROR) := by decide

example :
    retry_transcription ⟨3, 1, 30⟩ (fun _ => Except.error "internal server error") =
      { success := false, data := (none : Option Nat),
        error := some "internal server error", attempts := 3,
        retry_reason := some RetryReason.SERVER_ERROR } := by decide

/-! ## The dual-window session coordinator (window_manager.py)

The WindowManager state is embedded with the two JSON files modelled as
optional fields (disk_widget, disk_windows). The single threading.Lock
of the class is non-reentrant; each helper method that executes a
with-lock block takes the flag held saying whether the calling context
already holds the lock, and models a second acquire by getting stuck:
it returns none instead of a result, and the caller then also produces
no result, while keeping whatever state mutations already happened
(they stay visible to other threads). -/

/-- WindowType enum of window_manager.py. -/
inductive WindowType where
  | MAIN
  | WIDGET
  deriving DecidableEq

/-- RecordingState enum of window_manager.py. -/
inductive RecordingState where
  | IDLE
  | RECORDING
  | PROCESSING
  | ERROR
  deriving DecidableEq

/-- WindowState enum of window_manager.py. -/
inductive WindowState where
  | HIDDEN
  | VISIBLE
  | FOCUSED
  | MINIMIZED
  deriving DecidableEq

/-- The widget_config dictionary: position plus the two flags, as
initialised in WindowManager.__init__ and persisted wholesale by
_save_widget_config. -/
structure WidgetConfig where
  x : ℤ
  y : ℤ
  always_on_top : Bool
  visible : Bool
  deriving DecidableEq

/-- The mutable state of a WindowManager instance, together with the
contents of its two persistence files (none = file does not exist). -/
structure WindowManager where
  recording_state : RecordingState
  active_window : Option WindowType
  recording_session_id : Option String
  recording_start_time : Option Nat
  main_state : WindowState
  widget_state : WindowState
  widget_config : WidgetConfig
  disk_widget : Option WidgetConfig
  disk_windows : Option (WindowState × WindowState)
  deriving DecidableEq

/-- WindowManager.__init__: defaults, then _load_widget_config and
_load_window_states overwrite from the files when they exist (the
saved widget file always carries the full configuration dictionary,
so the dict update replaces it wholesale). -/
def initWindowManager (disk_widget : Option WidgetConfig)
    (disk_windows : Option (WindowState × WindowState)) : WindowManager :=
  let cfg := match disk_widget with
    | some c => c
    | none => { x := 100, y := 100, always_on_top := true, visible := true }
  let ws := match disk_windows with
    | some p => p
    | none => (WindowState.HIDDEN, WindowState.HIDDEN)
  { recording_state := RecordingState.IDLE
    active_window := none
    recording_session_id := none
    recording_start_time := none
    main_state := ws.1
    widget_state := ws.2
    widget_config := cfg
    disk_widget := disk_widget
    disk_windows := disk_windows }

/-- The session id string built in start_recording from the clock
(milliseconds since the epoch). -/
def mkSessionId (now : Nat) : String :=
  "rec_" ++ toString now

/-- The dictionary returned by WindowManager.get_recording_state. -/
structure RecInfo where
  state : RecordingState
  active_window : Option WindowType
  session_id : Option String
  start_time : Option Nat
  duration : Option Nat
  deriving DecidableEq

/-- The structured result dictionaries returned by the recording
lifecycle methods (success flag, optional error text, session id,
embedded state snapshot, message). -/
structure OpResult where
  success : Bool
  error : Option String := none
  session_id : Option String := none
  current_state : Option RecInfo := none
  message : Option String := none
  deriving DecidableEq

/-- WindowManager.get_recording_state: acquires the lock and returns a
snapshot. If the lock is already held by the caller, the non-reentrant
acquire blocks forever: no result. -/
def get_recording_state_m (held : Bool) (now : Nat) (s : WindowManager) :
    Option RecInfo :=
  if held then none
  else some
    { state := s.recording_state
      active_window := s.active_window
      session_id := s.recording_session_id
      start_time := s.recording_start_time
      duration := s.recording_start_time.map fun t => now - t }

/-- WindowManager.set_window_state: acquires the lock, updates the one
window state and saves both to the window-states file. Stuck when the
lock is already held. -/
def set_window_state_m (held : Bool) (wt : WindowType) (st : WindowState)
    (s : WindowManager) : Option (Bool × WindowManager) :=
  if held then none
  else
    let s1 := match wt with
      | WindowType.MAIN => { s with main_state := st }
      | WindowType.WIDGET => { s with widget_state := st }
    some (true, { s1 with disk_windows := some (s1.main_state, s1.widget_state) })

/-- WindowManager.start_recording. Inside the with-lock block: reject
when not idle (the conflict dictionary evaluates get_recording_state
while the lock is held), otherwise record the new session and call
set_window_state (which re-acquires the held lock) for the windows. -/
def start_recording (w : WindowType) (now : Nat) (s : WindowManager) :
    Option OpResult × WindowManager :=
  if s.recording_state ≠ RecordingState.IDLE then
    match get_recording_state_m true now s with
    | none => (none, s)
    | some info =>
      (some { success := false,
              error := some "Recording already in progress",
              current_state := some info }, s)
  else
    let sid := mkSessionId now
    let s1 := { s with recording_state := RecordingState.RECORDING
                       active_window := some w
                       recording_session_id := some sid
                       recording_start_time := some now }
    let after : Option Unit × WindowManager :=
      if w = WindowType.MAIN then
        match set_window_state_m true WindowType.MAIN WindowState.VISIBLE s1 with
        | none => (none, s1)
        | some (_, s2) =>
          match set_window_state_m true WindowType.WIDGET WindowState.FOCUSED s2 with
          | none => (none, s2)
          | some (_, s3) => (some (), s3)
      else
        match set_window_state_m true WindowType.WIDGET WindowState.FOCUSED s1 with
        | none => (none, s1)
        | some (_, s2) => (some (), s2)
    match after with
    | (none, sf) => (none, sf)
    | (some _, sf) =>
      match get_recording_state_m false now sf with
      | none => (none, sf)
      | some info =>
        (some { success := true, session_id := some sid,
                current_state := some info,
                message := some "Recording started" }, sf)

/-- WindowManager.stop_recording. Both branches evaluate
get_recording_state inside the with-lock block (the conflict
dictionary, and the session_info snapshot taken before the state
change). -/
def stop_recording (now : Nat) (s : WindowManager) :
    Option OpResult × WindowManager :=
  if s.recording_state ≠ RecordingState.RECORDING then
    match get_recording_state_m true now s with
    | none => (none, s)
    | some info =>
      (some { success := false,
              error := some "No recording in progress",
              current_state := some info }, s)
  else
    match get_recording_state_m true now s with
    | none => (none, s)
    | some info =>
      let s1 := { s with recording_state := RecordingState.PROCESSING }
      (some { success := true, session_id := s.recording_session_id,
              current_state := some info,
              message := some "Recording stopped, processing" }, s1)

/-- WindowManager.complete_recording; same shape as stop_recording,
with the snapshot taken before the session fields are cleared. -/
def complete_recording (_flag : Bool) (now : Nat) (s : WindowManager) :
    Option OpResult × WindowManager :=
  if s.recording_state ≠ RecordingState.PROCESSING then
    match get_recording_state_m true now s with
    | none => (none, s)
    | some info =>
      (some { success := false,
              error := some "No processing in progress",
              current_state := some info }, s)
  else
    match get_recording_state_m true now s with
    | none => (none, s)
    | some info =>
      let s1 := { s with recording_state := RecordingState.IDLE
                         active_window := none
                         recording_session_id := none
                         recording_start_time := none }
      (some { success := true, session_id := s.recording_session_id,
              current_state := some info,
              message := some "Recording session completed" }, s1)

/-- One button entry of the dictionaries built by get_button_states.
The active_control key is present (and true) only on the widget entry
of the recording and processing branches; absence is modelled as
false. -/
structure ButtonInfo where
  text : String
  enabled : Bool
  state : String
  active_control : Bool := false
  deriving DecidableEq

/-- The pair of button dictionaries returned by get_button_states. -/
structure ButtonStates where
  main : ButtonInfo
  widget : ButtonInfo
  deriving DecidableEq

/-- The string value of a RecordingState, as used for the state keys. -/
def stateValue : RecordingState → String
  | RecordingState.IDLE => "idle"
  | RecordingState.RECORDING => "recording"
  | RecordingState.PROCESSING => "processing"
  | RecordingState.ERROR => "error"

/-- The pure branch logic of get_button_states, computed after the lock
is released from the snapshot of recording_state and active_window;
the active_window snapshot is taken but never used by the branches. -/
def button_states_of (rs : RecordingState) (_aw : Option WindowType) :
    ButtonStates :=
  if rs = RecordingState.IDLE then
    { main := { text := "Record", enabled := true, state := "idle" }
      widget := { text := "Record", enabled := true, state := "idle" } }
  else if rs = RecordingState.RECORDING ∨ rs = RecordingState.PROCESSING then
    { main :=
        { text := if rs = RecordingState.RECORDING then "Recording..." else "Processing..."
          enabled := false
          state := stateValue rs }
      widget :=
        { text := if rs = RecordingState.RECORDING then "Stop" else "Processing..."
          enabled := decide (rs = RecordingState.RECORDING)
          state := stateValue rs
          active_control := true } }
  else
    { main := { text := "Error", enabled := false, state := "error" }
      widget := { text := "Error", enabled := false, state := "error" } }

/-- WindowManager.get_button_states: snapshot under the lock, then the
pure branch logic. Stuck when the lock is already held. -/
def get_button_states_m (held : Bool) (s : WindowManager) :
    Option ButtonStates :=
  if held then none
  else some (button_states_of s.recording_state s.active_window)

/-- The dictionary built by get_full_state. -/
structure FullState where
  recording : RecInfo
  windows : WindowState × WindowState
  widget : WidgetConfig
  button_states : ButtonStates
  deriving DecidableEq

/-- WindowManager.get_full_state: inside its with-lock block the
dictionary values call get_recording_state and get_button_states,
which re-acquire the held lock. -/
def get_full_state_m (held : Bool) (now : Nat) (s : WindowManager) :
    Option FullState :=
  if held then none
  else
    match get_recording_state_m true now s with
    | none => none
    | some ri =>
      match get_button_states_m true s with
      | none => none
      | some btns =>
        some { recording := ri
               windows := (s.main_state, s.widget_state)
               widget := s.widget_config
               button_states := btns }

/-- WindowManager.reset_state: clears the session, hides both windows
and saves them, releases the lock, then builds the result dictionary,
whose current_state value calls get_full_state. -/
def reset_state (now : Nat) (s : WindowManager) :
    Option OpResult × WindowManager :=
  let s1 := { s with recording_state := RecordingState.IDLE
                     active_window := none
                     recording_session_id := none
                     recording_start_time := none
                     main_state := WindowState.HIDDEN
                     widget_state := WindowState.HIDDEN
                     disk_windows := some (WindowState.HIDDEN, WindowState.HIDDEN) }
  match get_full_state_m false now s1 with
  | none => (none, s1)
  | some _ =>
    (some { success := true,
            message := some "Application state reset successfully" }, s1)

/-- WindowManager.get_widget_position: a copy of the position under the
lock (acquired and released, no nesting). -/
def get_widget_position (s : WindowManager) : ℤ × ℤ :=
  (s.widget_config.x, s.widget_config.y)

/-- WindowManager.set_widget_position: update the position under the
lock and persist the whole widget configuration to its file. -/
def set_widget_position (x y : ℤ) (s : WindowManager) :
    Option Bool × WindowManager :=
  let cfg := { s.widget_config with x := x, y := y }
  let s1 := { s with widget_config := cfg, disk_widget := some cfg }
  (some true, s1)

/-- The public recording-lifecycle operations of the coordinator, each
carrying the clock value at which it is invoked. -/
inductive WMOp where
  | start (w : WindowType) (now : Nat)
  | stop (now : Nat)
  | complete (flag : Bool) (now : Nat)
  | reset (now : Nat)

/-- The state left behind by one public operation (the result channel
is dropped; mutations performed before a stuck lock acquire remain). -/
def applyOp (s : WindowManager) : WMOp → WindowManager
  | WMOp.start w now => (start_recording w now s).2
  | WMOp.stop now => (stop_recording now s).2
  | WMOp.complete flag now => (complete_recording flag now s).2
  | WMOp.reset now => (reset_state now s).2

/-- The state after a sequence of public operations. -/
def applyOps (s : WindowManager) (ops : List WMOp) : WindowManager :=
  ops.foldl applyOp s

/-! ## Claims about the retry engine classification and delays -/

/-- The network/connectivity phrase list as the specification words it
(step 1 of the classification precedence); unlike the source table
networkKws it does not include the bare word timeout. -/
def specNetworkKws : List String :=
  ["connection", "network", "unreachable", "connection reset",
   "connection refused"]

/-- The server-error phrase list as the specification words it (step 3
of the classification precedence); unlike the source table serverKws it
does not include the bare phrase server error. -/
def specServerKws : List String :=
  ["internal server error", "500", "502", "503", "504",
   "service unavailable"]

/-- Claim C4 as stated is false: the description timeout contains a
timeout phrase and none of the higher-precedence phrases the claim
lists, yet should_retry classifies it as a network error, because the
source network table also contains the word timeout. -/
theorem c4_claim_counterexample :
    containsAny (lowerData "timeout") timeoutKws = true
    ∧ containsAny (lowerData "timeout") specNetworkKws = false
    ∧ containsAny (lowerData "timeout") rateKws = false
    ∧ containsAny (lowerData "timeout") specServerKws = false
    ∧ should_retry "timeout" = (true, RetryReason.NETWORK_ERROR)
    ∧ should_retry "timeout" ≠ (true, RetryReason.API_TIMEOUT) := by
  decide

/-- Claim C4 (amended): an error description containing a timeout
phrase and none of the phrases of the three higher-precedence source
tables (the network table including timeout itself, the rate-limit
table, and the server table including the bare phrase server error) is
classified retryable with category API_TIMEOUT. -/
theorem c4_timeout_classification (e : String)
    (ht : containsAny (lowerData e) timeoutKws = true)
    (hn : containsAny (lowerData e) networkKws = false)
    (hr : containsAny (lowerData e) rateKws = false)
    (hs : containsAny (lowerData e) serverKws = false) :
    should_retry e = (true, RetryReason.API_TIMEOUT) := by
  simp [should_retry, hn, hr, hs, ht]

/-- Witness for c4_timeout_classification at the description timed out. -/
theorem c4_timeout_classification_witness :
    containsAny (lowerData "timed out") timeoutKws = true
    ∧ containsAny (lowerData "timed out") networkKws = false
    ∧ containsAny (lowerData "timed out") rateKws = false
    ∧ containsAny (lowerData "timed out") serverKws = false
    ∧ should_retry "timed out" = (true, RetryReason.API_TIMEOUT) := by
  exact ⟨by decide, by decide, by decide, by decide,
    c4_timeout_classification "timed out" (by decide) (by decide) (by decide) (by decide)⟩

/-- Claim C5 as stated is false at attempt 7: with the default base
delay of one second both the network and the rate-limit delays clamp
to the 30-second cap, so the network delay is not strictly smaller. -/
theorem c5_strictness_counterexample :
    calculate_delay ⟨3, 1, 30⟩ 7 RetryReason.NETWORK_ERROR = 30
    ∧ calculate_delay ⟨3, 1, 30⟩ 7 RetryReason.RATE_LIMIT = 30
    ∧ ¬ (calculate_delay ⟨3, 1, 30⟩ 7 RetryReason.NETWORK_ERROR <
          calculate_delay ⟨3, 1, 30⟩ 7 RetryReason.RATE_LIMIT) := by
  norm_num [calculate_delay]

/-- Claim C5 (amended): with the default base delay of one second the
network delay is monotonically non-decreasing in the attempt number,
never exceeds 30 seconds, and is at most the rate-limit delay of the
same attempt - strictly smaller for attempts 1 through 6, before both
delays reach the 30-second cap. -/
theorem c5_backoff_relations (h : TranscriptionRetryHandler)
    (hbd : h.base_delay = 1) (a b c : Nat)
    (ha : 1 ≤ a) (hab : a ≤ b) (hc1 : 1 ≤ c) (hc6 : c ≤ 6) :
    calculate_delay h a RetryReason.NETWORK_ERROR ≤
      calculate_delay h b RetryReason.NETWORK_ERROR
    ∧ calculate_delay h a RetryReason.NETWORK_ERROR ≤ 30
    ∧ calculate_delay h a RetryReason.NETWORK_ERROR ≤
        calculate_delay h a RetryReason.RATE_LIMIT
    ∧ calculate_delay h c RetryReason.NETWORK_ERROR <
        calculate_delay h c RetryReason.RATE_LIMIT := by
  have hpow : ∀ n : Nat, (0:ℚ) ≤ (2:ℚ) ^ ((n : ℤ) - 1) :=
    fun n => zpow_nonneg (by norm_num) _
  refine ⟨?_, ?_, ?_, ?_⟩
  · simp only [calculate_delay, hbd, one_mul]
    refine min_le_min (mul_le_mul_of_nonneg_right ?_ (by norm_num)) le_rfl
    exact zpow_le_zpow_right₀ (by norm_num) (by omega)
  · simp only [calculate_delay, hbd, one_mul]
    exact min_le_right _ _
  · simp only [calculate_delay, hbd, one_mul]
    refine min_le_min ?_ le_rfl
    have := hpow a
    linarith
  · interval_cases c <;> norm_num [calculate_delay, hbd]

/-- Witness for c5_backoff_relations at attempts 2, 5 and 3. -/
theorem c5_backoff_relations_witness :
    1 ≤ 2 ∧ 2 ≤ 5 ∧ 1 ≤ 3 ∧ 3 ≤ 6
    ∧ (calculate_delay ⟨3, 1, 30⟩ 2 RetryReason.NETWORK_ERROR ≤
         calculate_delay ⟨3, 1, 30⟩ 5 RetryReason.NETWORK_ERROR
       ∧ calculate_delay ⟨3, 1, 30⟩ 2 RetryReason.NETWORK_ERROR ≤ 30
       ∧ calculate_delay ⟨3, 1, 30⟩ 2 RetryReason.NETWORK_ERROR ≤
           calculate_delay ⟨3, 1, 30⟩ 2 RetryReason.RATE_LIMIT
       ∧ calculate_delay ⟨3, 1, 30⟩ 3 RetryReason.NETWORK_ERROR <
           calculate_delay ⟨3, 1, 30⟩ 3 RetryReason.RATE_LIMIT) :=
  ⟨by norm_num, by norm_num, by norm_num, by norm_num,
   c5_backoff_relations ⟨3, 1, 30⟩ rfl 2 5 3 (by norm_num) (by norm_num)
     (by norm_num) (by norm_num)⟩

/-- Claim C7: the dynamic timeout is 60 for an unknown or nonpositive
duration and clamp(floor(d * 2 + 30), 60, 1800) for a positive one,
with the three concrete values the specification gives. -/
theorem c7_dynamic_timeout_spec (d e : ℚ) (hd : d ≤ 0) (he : 0 < e) :
    dynamic_timeout_for none = 60
    ∧ dynamic_timeout_for (some d) = 60
    ∧ dynamic_timeout_for (some e) = max 60 (min ⌊e * 2 + 30⌋ 1800)
    ∧ calculate_dynamic_timeout 0 = 60
    ∧ calculate_dynamic_timeout 600 = 1230
    ∧ calculate_dynamic_timeout 10000 = 1800 := by
  refine ⟨rfl, ?_, ?_, ?_, ?_, ?_⟩
  · simp [dynamic_timeout_for, not_lt.mpr hd]
  · have hne : ¬ e ≤ 0 := not_le.mpr he
    have h0 : (0:ℚ) ≤ e * 2 + 30 := by nlinarith
    simp [dynamic_timeout_for, he, calculate_dynamic_timeout, hne, pyInt, h0]
  · norm_num [calculate_dynamic_timeout]
  · have h0 : (0:ℚ) ≤ (600:ℚ) * 2 + 30 := by norm_num
    have hfl : ⌊(600:ℚ) * 2 + 30⌋ = 1230 := by
      norm_num
    norm_num [calculate_dynamic_timeout, pyInt, hfl]
  · have hfl : ⌊(10000:ℚ) * 2 + 30⌋ = 20030 := by
      norm_num
    norm_num [calculate_dynamic_timeout, pyInt, hfl]

/-- Witness for c7_dynamic_timeout_spec at durations -1 and 600. -/
theorem c7_dynamic_timeout_spec_witness :
    ((-1 : ℚ) ≤ 0) ∧ ((0 : ℚ) < 600)
    ∧ (dynamic_timeout_for none = 60
       ∧ dynamic_timeout_for (some (-1)) = 60
       ∧ dynamic_timeout_for (some 600) = max 60 (min ⌊(600:ℚ) * 2 + 30⌋ 1800)
       ∧ calculate_dynamic_timeout 0 = 60
       ∧ calculate_dynamic_timeout 600 = 1230
       ∧ calculate_dynamic_timeout 10000 = 1800) :=
  ⟨by norm_num, by norm_num,
   c7_dynamic_timeout_spec (-1) 600 (by norm_num) (by norm_num)⟩

/-! ## Claims about the session coordinator -/

/-- Claim C2 evaluated on the code: start_recording never returns a
structured result. From idle it mutates the session fields and then
blocks forever re-acquiring its own non-reentrant lock inside
set_window_state; from a non-idle state the conflict dictionary blocks
the same way inside get_recording_state. The standalone test of the
repository expects a returned success result here. -/
theorem c2_start_recording_deadlock :
    (start_recording WindowType.MAIN 0 (initWindowManager none none)).1 = none
    ∧ ((start_recording WindowType.MAIN 0 (initWindowManager none none)).2).recording_state
        = RecordingState.RECORDING
    ∧ ((start_recording WindowType.MAIN 0 (initWindowManager none none)).2).active_window
        = some WindowType.MAIN
    ∧ (start_recording WindowType.WIDGET 1
          ((start_recording WindowType.MAIN 0 (initWindowManager none none)).2)).1 = none := by
  decide

/-- Claim C3 evaluated on the code: operations executed alone with the
lock initially free do attempt to re-acquire the held lock and get
stuck, returning no structured result: stop_recording and
complete_recording (snapshot taken under the lock), reset_state and
get_full_state (nested state queries under the lock). -/
theorem c3_nested_lock_deadlock :
    (stop_recording 5 { initWindowManager none none with
        recording_state := RecordingState.RECORDING }).1 = none
    ∧ (complete_recording true 6 { initWindowManager none none with
        recording_state := RecordingState.PROCESSING }).1 = none
    ∧ (reset_state 7 (initWindowManager none none)).1 = none
    ∧ get_full_state_m false 8 (initWindowManager none none) = none := by
  decide

/-- Claim C6: whenever the recording state is recording, regardless of
every other field of the coordinator state (in particular the stored
active_window), the button states are main Recording... disabled and
widget Stop enabled with the active-control mark, and the result is
the same for any state with the same recording state. -/
theorem c6_recording_button_states (s t : WindowManager)
    (hs : s.recording_state = RecordingState.RECORDING)
    (hts : t.recording_state = s.recording_state) :
    get_button_states_m false s = some
      { main := { text := "Recording...", enabled := false, state := "recording" }
        widget := { text := "Stop", enabled := true, state := "recording",
                    active_control := true } }
    ∧ get_button_states_m false t = get_button_states_m false s := by
  constructor
  · simp [get_button_states_m, button_states_of, hs, stateValue]
  · simp [get_button_states_m, button_states_of, hts, hs]

/-- Witness for c6_recording_button_states: a recording started by the
main window and one started by the widget produce the same button
states. -/
theorem c6_recording_button_states_witness :
    ({ initWindowManager none none with
        recording_state := RecordingState.RECORDING,
        active_window := some WindowType.MAIN,
        recording_session_id := some "rec_0",
        recording_start_time := some 0 } : WindowManager).recording_state
      = RecordingState.RECORDING
    ∧ ({ initWindowManager none none with
          recording_state := RecordingState.RECORDING,
          active_window := some WindowType.WIDGET,
          recording_session_id := some "rec_9",
          recording_start_time := some 9 } : WindowManager).recording_state
        = ({ initWindowManager none none with
              recording_state := RecordingState.RECORDING,
              active_window := some WindowType.MAIN,
              recording_session_id := some "rec_0",
              recording_start_time := some 0 } : WindowManager).recording_state
    ∧ (get_button_states_m false
         { initWindowManager none none with
            recording_state := RecordingState.RECORDING,
            active_window := some WindowType.MAIN,
            recording_session_id := some "rec_0",
            recording_start_time := some 0 } = some
         { main := { text := "Recording...", enabled := false, state := "recording" }
           widget := { text := "Stop", enabled := true, state := "recording",
                       active_control := true } }
       ∧ get_button_states_m false
           { initWindowManager none none with
              recording_state := RecordingState.RECORDING,
              active_window := some WindowType.WIDGET,
              recording_session_id := some "rec_9",
              recording_start_time := some 9 }
         = get_button_states_m false
             { initWindowManager none none with
                recording_state := RecordingState.RECORDING,
                active_window := some WindowType.MAIN,
                recording_session_id := some "rec_0",
                recording_start_time := some 0 }) :=
  ⟨rfl, rfl, c6_recording_button_states _ _ rfl rfl⟩

/-- Claim C9: setting the widget position and reading it back returns
the same pair, the setter reports success, and a coordinator freshly
constructed over the storage files the setter left behind reports the
same position. -/
theorem c9_widget_position_roundtrip (x y : ℤ) (s : WindowManager) :
    get_widget_position (set_widget_position x y s).2 = (x, y)
    ∧ (set_widget_position x y s).1 = some true
    ∧ get_widget_position
        (initWindowManager ((set_widget_position x y s).2).disk_widget
          ((set_widget_position x y s).2).disk_windows) = (x, y) :=
  ⟨rfl, rfl, rfl⟩

/-- One public lifecycle operation cannot move the recording state to
ERROR. -/
theorem applyOp_not_error (s : WindowManager) (op : WMOp)
    (h : s.recording_state ≠ RecordingState.ERROR) :
    (applyOp s op).recording_state ≠ RecordingState.ERROR := by
  cases op with
  | start w now =>
    simp only [applyOp, start_recording]
    split
    · simpa [get_recording_state_m] using h
    · cases w <;> simp [set_window_state_m, get_recording_state_m]
  | stop now =>
    simp only [applyOp, stop_recording]
    split <;> simpa [get_recording_state_m] using h
  | complete flag now =>
    simp only [applyOp, complete_recording]
    split <;> simpa [get_recording_state_m] using h
  | reset now =>
    simp [reset_state, applyOp, get_full_state_m, get_recording_state_m]

/-- Claim C10: starting from the initial idle state, no sequence of the
public lifecycle operations ever reaches the ERROR recording state,
and consequently get_button_states never produces the Error buttons
along such a sequence. -/
theorem c10_error_state_unreachable (ops : List WMOp) :
    (applyOps (initWindowManager none none) ops).recording_state ≠ RecordingState.ERROR
    ∧ get_button_states_m false (applyOps (initWindowManager none none) ops) ≠ some
        { main := { text := "Error", enabled := false, state := "error" }
          widget := { text := "Error", enabled := false, state := "error" } } := by
  have hinv : ∀ (l : List WMOp) (s : WindowManager),
      s.recording_state ≠ RecordingState.ERROR →
      (applyOps s l).recording_state ≠ RecordingState.ERROR := by
    intro l
    induction l with
    | nil => intro s hs; exact hs
    | cons op l ih =>
      intro s hs
      simpa [applyOps] using ih (applyOp s op) (applyOp_not_error s op hs)
  have hne := hinv ops (initWindowManager none none) (by decide)
  refine ⟨hne, ?_⟩
  cases hrs : (applyOps (initWindowManager none none) ops).recording_state <;>
    simp_all [get_button_states_m, button_states_of]

/-! ## Claims about the retry loop -/

/-- Attempt j of the operation fails with a retryable error. -/
def failsRetryable {α : Type} (op : Nat → Except String α) (j : Nat) : Prop :=
  ∃ e, op j = Except.error e ∧ (should_retry e).1 = true

/-- If the attempts before k fail retryably and attempt k succeeds, the
loop returns the success result of attempt k. -/
theorem retryLoopGo_ok {α : Type} (op : Nat → Except String α) (maxA : Nat) :
    ∀ (rem attempt : Nat) (le0 : Option String) (lr : Option RetryReason)
      (k : Nat) (r : α),
      attempt ≤ k → k < attempt + rem →
      (∀ j, attempt ≤ j → j < k → failsRetryable op j) →
      op k = Except.ok r →
      retryLoopGo op maxA rem attempt le0 lr =
        { success := true, data := some r, error := none,
          attempts := k, retry_reason := none } := by
  intro rem
  induction rem with
  | zero =>
    intro attempt le0 lr k r hak hk _ _
    exfalso; omega
  | succ rem ih =>
    intro attempt le0 lr k r hak hk hfail hok
    rcases Nat.eq_or_lt_of_le hak with heq | hlt
    · subst heq
      simp [retryLoopGo, hok]
    · obtain ⟨e, he, hre⟩ := hfail attempt le_rfl hlt
      simp only [retryLoopGo, he, hre]
      simp only [Bool.true_eq_false, if_false]
      exact ih (attempt + 1) (some e) (some (should_retry e).2) k r hlt
        (by omega) (fun j h1 h2 => hfail j (by omega) h2) hok

/-- If the attempts before k fail retryably and attempt k fails with a
non-retryable error, the loop returns the failure of attempt k at
once. -/
theorem retryLoopGo_nonretryable {α : Type} (op : Nat → Except String α) (maxA : Nat) :
    ∀ (rem attempt : Nat) (le0 : Option String) (lr : Option RetryReason)
      (k : Nat) (e : String),
      attempt ≤ k → k < attempt + rem →
      (∀ j, attempt ≤ j → j < k → failsRetryable op j) →
      op k = Except.error e → (should_retry e).1 = false →
      retryLoopGo op maxA rem attempt le0 lr =
        { success := false, data := none, error := some e,
          attempts := k, retry_reason := some (should_retry e).2 } := by
  intro rem
  induction rem with
  | zero =>
    intro attempt le0 lr k e hak hk _ _ _
    exfalso; omega
  | succ rem ih =>
    intro attempt le0 lr k e hak hk hfail hop hnr
    rcases Nat.eq_or_lt_of_le hak with heq | hlt
    · subst heq
      simp [retryLoopGo, hop, hnr]
    · obtain ⟨e1, he1, hre1⟩ := hfail attempt le_rfl hlt
      simp only [retryLoopGo, he1, hre1]
      simp only [Bool.true_eq_false, if_false]
      exact ih (attempt + 1) (some e1) (some (should_retry e1).2) k e hlt
        (by omega) (fun j h1 h2 => hfail j (by omega) h2) hop hnr

/-- If every attempt of the window fails retryably, the loop exhausts
its iterations and returns the failure carrying the last error and its
category, with attempts = max_attempts. -/
theorem retryLoopGo_exhaust {α : Type} (op : Nat → Except String α) (maxA : Nat) :
    ∀ (r attempt : Nat) (le0 : Option String) (lr : Option RetryReason) (eL : String),
      (∀ j, attempt ≤ j → j < attempt + (r + 1) → failsRetryable op j) →
      op (attempt + r) = Except.error eL →
      retryLoopGo op maxA (r + 1) attempt le0 lr =
        { success := false, data := none, error := some eL,
          attempts := maxA, retry_reason := some (should_retry eL).2 } := by
  intro r
  induction r with
  | zero =>
    intro attempt le0 lr eL hfail hop
    rw [Nat.add_zero] at hop
    obtain ⟨e, he, hre⟩ := hfail attempt le_rfl (by omega)
    have heq : e = eL := by
      have := he.symm.trans hop
      exact Except.error.inj this
    subst heq
    simp [retryLoopGo, he, hre]
  | succ r ih =>
    intro attempt le0 lr eL hfail hop
    obtain ⟨e, he, hre⟩ := hfail attempt le_rfl (by omega)
    simp only [retryLoopGo, he, hre]
    simp only [Bool.true_eq_false, if_false]
    refine ih (attempt + 1) (some e) (some (should_retry e).2) eL
      (fun j h1 h2 => hfail j (by omega) (by omega)) ?_
    have : attempt + 1 + r = attempt + (r + 1) := by omega
    rw [this]
    exact hop

/-- Claim C1: for every operation and every handler allowing at least
one attempt, the retry loop returns the terminal outcome the
specification describes: the success of the first succeeding attempt k
with attempts_made = k; the immediate failure of the first
non-retryably failing attempt k with attempts_made = k and its
category; or, when every allowed attempt fails retryably, the failure
carrying the last error and its category with attempts_made =
max_attempts. -/
theorem c1_retry_terminal {α : Type} (op : Nat → Except String α)
    (h : TranscriptionRetryHandler) (hmax : 1 ≤ h.max_attempts) :
    (∀ k r, 1 ≤ k → k ≤ h.max_attempts →
      (∀ j, 1 ≤ j → j < k → failsRetryable op j) → op k = Except.ok r →
      retry_transcription h op =
        { success := true, data := some r, error := none,
          attempts := k, retry_reason := none })
    ∧ (∀ k e, 1 ≤ k → k ≤ h.max_attempts →
        (∀ j, 1 ≤ j → j < k → failsRetryable op j) →
        op k = Except.error e → (should_retry e).1 = false →
        retry_transcription h op =
          { success := false, data := none, error := some e,
            attempts := k, retry_reason := some (should_retry e).2 })
    ∧ (∀ e, (∀ j, 1 ≤ j → j ≤ h.max_attempts → failsRetryable op j) →
        op h.max_attempts = Except.error e →
        retry_transcription h op =
          { success := false, data := none, error := some e,
            attempts := h.max_attempts,
            retry_reason := some (should_retry e).2 }) := by
  refine ⟨?_, ?_, ?_⟩
  · intro k r hk1 hkm hfail hok
    exact retryLoopGo_ok op h.max_attempts h.max_attempts 1 none none k r hk1
      (by omega) hfail hok
  · intro k e hk1 hkm hfail hop hnr
    exact retryLoopGo_nonretryable op h.max_attempts h.max_attempts 1 none none k e
      hk1 (by omega) hfail hop hnr
  · intro e hfail hop
    obtain ⟨m, hm⟩ : ∃ m, h.max_attempts = m + 1 := ⟨h.max_attempts - 1, by omega⟩
    unfold retry_transcription
    rw [hm]
    rw [hm] at hop
    have hop2 : op (1 + m) = Except.error e := by
      have : 1 + m = m + 1 := by omega
      rw [this]; exact hop
    exact retryLoopGo_exhaust op (m + 1) m 1 none none e
      (fun j h1 h2 => hfail j h1 (by omega)) hop2

/-- Witness for c1_retry_terminal: three attempts against an operation
that always fails with an internal server error, the concrete scenario
of the specification. -/
theorem c1_retry_terminal_witness :
    1 ≤ (3 : Nat)
    ∧ retry_transcription ⟨3, 1, 30⟩
        (fun _ => (Except.error "internal server error" : Except String Nat)) =
      { success := false, data := none, error := some "internal server error",
        attempts := 3, retry_reason := some RetryReason.SERVER_ERROR } := by
  constructor
  · decide
  · have h3 := (c1_retry_terminal
      (fun _ => (Except.error "internal server error" : Except String Nat))
      ⟨3, 1, 30⟩ (by decide)).2.2
    have h4 := h3 "internal server error"
      (fun j _ _ => ⟨"internal server error", rfl, by decide⟩) rfl
    rw [h4]
    have : (should_retry "internal server error").2 = RetryReason.SERVER_ERROR := by
      decide
    rw [this]

/-- Every result of the loop, started at 1-based attempt counter
consistent with the remaining-iteration count, satisfies the outcome
invariant of claim C8. -/
theorem retryLoopGo_invariant {α : Type} (op : Nat → Except String α) (maxA : Nat)
    (hmax : 1 ≤ maxA) :
    ∀ (rem attempt : Nat) (le0 : Option String) (lr : Option RetryReason),
      1 ≤ attempt → attempt + rem = maxA + 1 →
      ((retryLoopGo op maxA rem attempt le0 lr).success = true ↔
        (retryLoopGo op maxA rem attempt le0 lr).data ≠ none)
      ∧ ((retryLoopGo op maxA rem attempt le0 lr).success = true ↔
          (retryLoopGo op maxA rem attempt le0 lr).error = none)
      ∧ 1 ≤ (retryLoopGo op maxA rem attempt le0 lr).attempts
      ∧ (retryLoopGo op maxA rem attempt le0 lr).attempts ≤ maxA := by
  intro rem
  induction rem with
  | zero =>
    intro attempt le0 lr h1 hsum
    refine ⟨by simp [retryLoopGo], by simp [retryLoopGo], ?_, ?_⟩
    · simpa [retryLoopGo] using hmax
    · simp [retryLoopGo]
  | succ rem ih =>
    intro attempt le0 lr h1 hsum
    cases hop : op attempt with
    | ok r =>
      refine ⟨by simp [retryLoopGo, hop], by simp [retryLoopGo, hop], ?_, ?_⟩
      · simpa [retryLoopGo, hop] using h1
      · simp only [retryLoopGo, hop]
        omega
    | error e =>
      by_cases hre : (should_retry e).1 = false
      · refine ⟨by simp [retryLoopGo, hop, hre], by simp [retryLoopGo, hop, hre], ?_, ?_⟩
        · simpa [retryLoopGo, hop, hre] using h1
        · simp only [retryLoopGo, hop, hre, if_true]
          omega
      · have hre2 : (should_retry e).1 = true := by
          cases hb : (should_retry e).1
          · exact absurd hb hre
          · rfl
        have hstep : retryLoopGo op maxA (rem + 1) attempt le0 lr =
            retryLoopGo op maxA rem (attempt + 1) (some e)
              (some (should_retry e).2) := by
          simp [retryLoopGo, hop, hre2]
        rw [hstep]
        exact ih (attempt + 1) (some e) (some (should_retry e).2)
          (by omega) (by omega)

/-- Claim C8: every outcome of the retry loop satisfies the invariant
that success holds exactly when the payload is present, exactly when
the error message is absent, and that the attempt count is between 1
and the configured maximum. -/
theorem c8_outcome_invariant {α : Type} (op : Nat → Except String α)
    (h : TranscriptionRetryHandler) (hmax : 1 ≤ h.max_attempts) :
    ((retry_transcription h op).success = true ↔
      (retry_transcription h op).data ≠ none)
    ∧ ((retry_transcription h op).success = true ↔
        (retry_transcription h op).error = none)
    ∧ 1 ≤ (retry_transcription h op).attempts
    ∧ (retry_transcription h op).attempts ≤ h.max_attempts := by
  unfold retry_transcription
  exact retryLoopGo_invariant op h.max_attempts hmax h.max_attempts 1 none none
    le_rfl (by omega)

/-- Witness for c8_outcome_invariant: an operation that succeeds at
once, with three allowed attempts. -/
theorem c8_outcome_invariant_witness :
    1 ≤ (3 : Nat)
    ∧ (((retry_transcription ⟨3, 1, 30⟩
          (fun _ => (Except.ok 0 : Except String Nat))).success = true ↔
        (retry_transcription ⟨3, 1, 30⟩
          (fun _ => (Except.ok 0 : Except String Nat))).data ≠ none)
       ∧ ((retry_transcription ⟨3, 1, 30⟩
            (fun _ => (Except.ok 0 : Except String Nat))).success = true ↔
          (retry_transcription ⟨3, 1, 30⟩
            (fun _ => (Except.ok 0 : Except String Nat))).error = none)
       ∧ 1 ≤ (retry_transcription ⟨3, 1, 30⟩
            (fun _ => (Except.ok 0 : Except String Nat))).attempts
       ∧ (retry_transcription ⟨3, 1, 30⟩
            (fun _ => (Except.ok 0 : Except String Nat))).attempts ≤ 3) :=
  ⟨by decide,
   c8_outcome_invariant (fun _ => (Except.ok 0 : Except String Nat)) ⟨3, 1, 30⟩
     (by decide)⟩
